import Mathlib

/-!
The `createCloudRunService` HTTP function of create-canyon-service.

A shallow embedding of `src/index.js`.  The file holds one asynchronous
request handler.  Its collaborators (the identity resolver `auth`, the
Cloud Run client `runClient`, the process environment) are parameters of
the embedding: a `Provider` over an arbitrary state type, so that a mock
may answer each call from whatever happened before, and the value of
`process.env.GOOGLE_ENVIRONMENT_VARIABLES`.

The handler is run by explicit state passing.  Besides the HTTP response it
returns the list of collaborator calls it made, each with its arguments, in
the order they were issued.  `console.log` and `console.error` lines write
diagnostics only and are left out.
-/

namespace CanyonService

/-! ## JavaScript values -/

/-- JavaScript values as they reach the handler: the parsed request body, its
fields, and the `code` of a thrown error.  Numbers carry an integer; the
handler inspects a number only through `typeof`, truthiness and `===`. -/
inductive JVal where
  | undefined : JVal
  | null : JVal
  | bool (b : Bool) : JVal
  | num (n : Int) : JVal
  | str (s : String) : JVal
  | arr (items : List JVal) : JVal
  | obj (fields : List (String × JVal)) : JVal

namespace JVal

/-- Truthiness: `!v` in the source is `!(truthy v)`. -/
def truthy : JVal → Bool
  | undefined => false
  | null => false
  | bool b => b
  | num n => n != 0
  | str s => s != ""
  | arr _ => true
  | obj _ => true

/-- The test `typeof v === "string"`. -/
def typeofIsString : JVal → Bool
  | str _ => true
  | _ => false

/-- The test `v === n` for a number literal `n`: strict equality, no coercion. -/
def strictEqNum : JVal → Int → Bool
  | num m, n => m == n
  | _, _ => false

/-- Own-property lookup in a parsed object. -/
def lookup (k : String) : List (String × JVal) → JVal
  | [] => undefined
  | (k', v) :: rest => if k' = k then v else lookup k rest

/-- Reading `v.k` for one of the three request field names.  It is `none`
when the read throws a `TypeError` (`v` is `undefined` or `null`); a
primitive or an array has no such property and yields `undefined`. -/
def getProp (v : JVal) (k : String) : Option JVal :=
  match v with
  | undefined => none
  | null => none
  | obj fields => some (lookup k fields)
  | _ => some undefined

mutual
/-- String conversion as done by a template literal `${v}`. -/
def toTemplateString : JVal → String
  | undefined => "undefined"
  | null => "null"
  | bool b => if b then "true" else "false"
  | num n => toString n
  | str s => s
  | arr items => joinItems items
  | obj _ => "[object Object]"
/-- The body of `Array.prototype.join(",")`: `null` and `undefined` elements
render as the empty string. -/
def joinItems : List JVal → String
  | [] => ""
  | [v] => itemString v
  | v :: w :: rest => itemString v ++ "," ++ joinItems (w :: rest)
/-- One element of a joined array. -/
def itemString : JVal → String
  | undefined => ""
  | null => ""
  | v => toTemplateString v
end

end JVal

/-! ## Data exchanged with the collaborators -/

/-- A value thrown by a collaborator: `err.code` (`undefined` when the error
has none) and `err.message`. -/
structure JsError where
  code : JVal
  message : String

/-- One `{ name, value }` entry of a container's environment. -/
structure EnvVar where
  name : String
  value : JVal

/-- One entry of `template.containers`. -/
structure Container where
  image : String
  env : List EnvVar

/-- The `template` of a service definition. -/
structure Template where
  containers : List Container

/-- The service definition built by the handler. -/
structure Service where
  template : Template

/-- The argument of `runClient.createService`. -/
structure CreateServiceRequest where
  parent : String
  service : Service
  serviceId : JVal

/-- The long-running operation returned by `createService`. -/
structure Operation where
  name : String

/-- The service resource a completed operation resolves to. -/
structure ServiceResponse where
  name : String
  uri : String

/-- One binding of an access policy. -/
structure Binding where
  role : String
  members : List String
  condition : Option String

/-- The access policy returned by `getIamPolicy`. -/
structure Policy where
  version : Int
  bindings : List Binding
  etag : String

/-- The collaborators of the handler, over a state `σ` of the outside world.
Each call returns its value or the thrown error, and the next state. -/
structure Provider (σ : Type) where
  getProjectId : σ → Except JsError String × σ
  createService : CreateServiceRequest → σ → Except JsError Operation × σ
  operationPromise : Operation → σ → Except JsError ServiceResponse × σ
  getIamPolicy : String → σ → Except JsError Policy × σ
  setIamPolicy : String → Policy → σ → Except JsError Unit × σ

/-- A collaborator call issued by the handler, with its arguments. -/
inductive Call where
  | getProjectId : Call
  | createService (req : CreateServiceRequest) : Call
  | operationPromise (op : Operation) : Call
  | getIamPolicy (resource : String) : Call
  | setIamPolicy (resource : String) (policy : Policy) : Call

/-! ## Request and response -/

/-- The part of the incoming request the handler reads. -/
structure Request where
  method : String
  body : JVal

/-- What the handler sends: `res.send(text)` or `res.json(value)`. -/
inductive ResBody where
  | text (s : String) : ResBody
  | json (v : JVal) : ResBody

/-- The response as the handler leaves it: the status, the headers it set
with `res.set`, and the body. -/
structure Response where
  status : Nat
  headers : List (String × String)
  body : ResBody

/-- The outcome of one run of the handler: the response (`none` when the
handler threw before sending one), the collaborator calls in order, and the
final state of the outside world. -/
structure HandlerResult (σ : Type) where
  response : Option Response
  calls : List Call
  state : σ

/-! ## The handler -/

/-- The region constant. -/
def region : String := "us-central1"

/-- The three headers set at the top of the handler. -/
def corsHeaders : List (String × String) :=
  [("Access-Control-Allow-Origin", "*"),
   ("Access-Control-Allow-Methods", "POST, OPTIONS"),
   ("Access-Control-Allow-Headers", "Content-Type")]

/-- The chain `res.status(code).send(text)` after the headers are set. -/
def sendText (code : Nat) (text : String) : Response :=
  { status := code, headers := corsHeaders, body := ResBody.text text }

/-- The guard `!v || typeof v !== "string"` of the input validation. -/
def invalidField (v : JVal) : Bool :=
  !v.truthy || !v.typeofIsString

/-- The template literal for `parent`. -/
def parent (projectId : String) : String :=
  "projects/" ++ projectId ++ "/locations/" ++ region

/-- The template literal for `fixedContainerImage`. -/
def fixedContainerImage (projectId : String) : String :=
  "us-central1-docker.pkg.dev/" ++ projectId ++
    "/github-actions-builds/canyonchat:17f96adf511309c19f9d5e640f0b8dc3fbdefc06"

/-- The array `envVars`. -/
def envVars (humanitecToken googleApiKey serviceAccountKeyJson : JVal) : List EnvVar :=
  [{ name := "ENABLE_MCP", value := JVal.str "true" },
   { name := "DEFAULT_MODEL", value := JVal.str "gemini-2.5-pro-preview-03-25" },
   { name := "HUMANITEC_TOKEN", value := humanitecToken },
   { name := "GOOGLE_API_KEY", value := googleApiKey },
   { name := "GCP_SERVICE_ACCOUNT_KEY_JSON", value := serviceAccountKeyJson }]

/-- The object `service`. -/
def service (projectId : String)
    (humanitecToken googleApiKey serviceAccountKeyJson : JVal) : Service :=
  { template :=
      { containers :=
          [{ image := fixedContainerImage projectId,
             env := envVars humanitecToken googleApiKey serviceAccountKeyJson }] } }

/-- The binding pushed onto the policy. -/
def publicInvoker : Binding :=
  { role := "roles/run.invoker", members := ["allUsers"], condition := none }

/-- The statement `policy.bindings.push(...)`: the same policy, one more
binding at the end. -/
def pushPublicInvoker (policy : Policy) : Policy :=
  { policy with bindings := policy.bindings ++ [publicInvoker] }

/-- The success response `res.status(200).json(...)`. -/
def successResponse (serviceName : JVal) (serviceResponse : ServiceResponse) : Response :=
  { status := 200
    headers := corsHeaders
    body := ResBody.json (JVal.obj
      [("message", JVal.str ("Service " ++ serviceName.toTemplateString ++
          " created successfully and made public.")),
       ("serviceUrl", JVal.str serviceResponse.uri),
       ("serviceName", JVal.str serviceResponse.name)]) }

/-- The body of the `try`: create the service, await the operation, read the
policy, push the binding, write the policy.  The first error thrown ends it.
Returns the value or the error, the calls made, and the next state. -/
def tryBlock {σ : Type} (P : Provider σ) (serviceName : JVal)
    (createReq : CreateServiceRequest) (s0 : σ) :
    Except JsError Response × List Call × σ :=
  match P.createService createReq s0 with
  | (Except.error err, s1) => (Except.error err, [Call.createService createReq], s1)
  | (Except.ok operation, s1) =>
    match P.operationPromise operation s1 with
    | (Except.error err, s2) =>
      (Except.error err, [Call.createService createReq, Call.operationPromise operation], s2)
    | (Except.ok serviceResponse, s2) =>
      let serviceFullName := serviceResponse.name
      match P.getIamPolicy serviceFullName s2 with
      | (Except.error err, s3) =>
        (Except.error err,
          [Call.createService createReq, Call.operationPromise operation,
           Call.getIamPolicy serviceFullName], s3)
      | (Except.ok policy, s3) =>
        let policy1 := pushPublicInvoker policy
        match P.setIamPolicy serviceFullName policy1 s3 with
        | (Except.error err, s4) =>
          (Except.error err,
            [Call.createService createReq, Call.operationPromise operation,
             Call.getIamPolicy serviceFullName,
             Call.setIamPolicy serviceFullName policy1], s4)
        | (Except.ok _, s4) =>
          (Except.ok (successResponse serviceName serviceResponse),
            [Call.createService createReq, Call.operationPromise operation,
             Call.getIamPolicy serviceFullName,
             Call.setIamPolicy serviceFullName policy1], s4)

/-- The body of the `catch`: the response chosen from `err.code`. -/
def catchBlock (serviceName : JVal) (err : JsError) : Response :=
  let errorMessage :=
    "Failed to create or configure service " ++ serviceName.toTemplateString ++ "."
  if err.code.strictEqNum 6 then
    sendText 409
      ("Service " ++ serviceName.toTemplateString ++ " already exists in " ++ region ++ ".")
  else if err.code.strictEqNum 7 then
    sendText 403
      "Permission denied. Ensure the function\x27s service account has necessary roles (Cloud Run Admin, IAM Policy Admin/Setter)."
  else
    sendText 500 (errorMessage ++ " Error: " ++ err.message)

/-- The argument object of the `runClient.createService` call. -/
def createServiceRequest (projectId : String)
    (serviceName humanitecToken googleApiKey serviceAccountKeyJson : JVal) :
    CreateServiceRequest :=
  { parent := parent projectId,
    service := service projectId humanitecToken googleApiKey serviceAccountKeyJson,
    serviceId := serviceName }

/-- The handler from the project-id lookup to its end, run once the three
fields passed validation.  `envKey` is the value of
`process.env.GOOGLE_ENVIRONMENT_VARIABLES` (`none` when unset). -/
def provision {σ : Type} (P : Provider σ) (envKey : Option String)
    (serviceName humanitecToken googleApiKey : JVal) (s : σ) : HandlerResult σ :=
  match P.getProjectId s with
  | (Except.error _, s1) =>
    { response := some (sendText 500 "Could not determine Google Cloud Project ID."),
      calls := [Call.getProjectId], state := s1 }
  | (Except.ok projectId, s1) =>
    let serviceAccountKeyJson : JVal :=
      match envKey with
      | none => JVal.undefined
      | some k => JVal.str k
    if !serviceAccountKeyJson.truthy then
      { response :=
          some (sendText 500 "Server configuration error: Missing service account key."),
        calls := [Call.getProjectId], state := s1 }
    else
      match tryBlock P serviceName
          (createServiceRequest projectId serviceName humanitecToken googleApiKey
            serviceAccountKeyJson) s1 with
      | (Except.ok response, calls, s2) =>
        { response := some response, calls := Call.getProjectId :: calls, state := s2 }
      | (Except.error err, calls, s2) =>
        { response := some (catchBlock serviceName err),
          calls := Call.getProjectId :: calls, state := s2 }

/-- The handler registered as `createCloudRunService`: the headers, the
method gate, the destructuring of `req.body` (no response when it throws),
the validation of the three fields, then `provision`. -/
def createCloudRunService {σ : Type} (P : Provider σ) (envKey : Option String)
    (req : Request) (s : σ) : HandlerResult σ :=
  if req.method = "OPTIONS" then
    { response := some (sendText 204 ""), calls := [], state := s }
  else if req.method ≠ "POST" then
    { response := some (sendText 405 "Method Not Allowed"), calls := [], state := s }
  else
    match req.body.getProp "serviceName", req.body.getProp "HUMANITEC_TOKEN",
        req.body.getProp "GOOGLE_API_KEY" with
    | some serviceName, some humanitecToken, some googleApiKey =>
      if invalidField serviceName then
        { response := some (sendText 400 "Missing or invalid \"serviceName\" in request body."),
          calls := [], state := s }
      else if invalidField humanitecToken then
        { response :=
            some (sendText 400 "Missing or invalid \"HUMANITEC_TOKEN\" in request body."),
          calls := [], state := s }
      else if invalidField googleApiKey then
        { response :=
            some (sendText 400 "Missing or invalid \"GOOGLE_API_KEY\" in request body."),
          calls := [], state := s }
      else
        provision P envKey serviceName humanitecToken googleApiKey s
    | _, _, _ => { response := none, calls := [], state := s }

/-! ## Vocabulary of the statements -/

/-- The text sent with a 400 for the field called `field`. -/
def validationMessage (field : String) : String :=
  "Missing or invalid \"" ++ field ++ "\" in request body."

/-- A field value that is missing or is not a string. -/
def missingOrNotString : JVal → Bool
  | JVal.str _ => false
  | _ => true

/-- A field value that is missing, is not a string, or is the empty string. -/
def missingNotStringOrEmpty : JVal → Bool
  | JVal.str s => s == ""
  | _ => true

/-- The first of `serviceName`, `HUMANITEC_TOKEN`, `GOOGLE_API_KEY`, in that
order, whose value in the parsed body satisfies `bad`. -/
def firstField (bad : JVal → Bool) (fields : List (String × JVal)) : Option String :=
  if bad (JVal.lookup "serviceName" fields) then some "serviceName"
  else if bad (JVal.lookup "HUMANITEC_TOKEN" fields) then some "HUMANITEC_TOKEN"
  else if bad (JVal.lookup "GOOGLE_API_KEY" fields) then some "GOOGLE_API_KEY"
  else none

/-- A `POST` request whose three fields are the non-empty strings `sn`, `ht`
and `gk`: the requests that pass the validation. -/
structure ValidPost (req : Request) (sn ht gk : String) : Prop where
  method_eq : req.method = "POST"
  serviceName_eq : req.body.getProp "serviceName" = some (JVal.str sn)
  humanitecToken_eq : req.body.getProp "HUMANITEC_TOKEN" = some (JVal.str ht)
  googleApiKey_eq : req.body.getProp "GOOGLE_API_KEY" = some (JVal.str gk)
  serviceName_ne : sn ≠ ""
  humanitecToken_ne : ht ≠ ""
  googleApiKey_ne : gk ≠ ""

/-- Some step of the `try` block, started in state `s` with the creation
request `rq`, throws `err`: `createService` does; or it returns an operation
and awaiting it throws; or the service is created and `getIamPolicy` throws;
or the policy is read and `setIamPolicy`, given the policy with the pushed
binding, throws. -/
inductive TryFails {σ : Type} (P : Provider σ) (rq : CreateServiceRequest) (s : σ)
    (err : JsError) : Prop where
  | createService (s1 : σ) (h : P.createService rq s = (Except.error err, s1)) :
      TryFails P rq s err
  | operationPromise (op : Operation) (s1 s2 : σ)
      (h1 : P.createService rq s = (Except.ok op, s1))
      (h2 : P.operationPromise op s1 = (Except.error err, s2)) : TryFails P rq s err
  | getIamPolicy (op : Operation) (sr : ServiceResponse) (s1 s2 s3 : σ)
      (h1 : P.createService rq s = (Except.ok op, s1))
      (h2 : P.operationPromise op s1 = (Except.ok sr, s2))
      (h3 : P.getIamPolicy sr.name s2 = (Except.error err, s3)) : TryFails P rq s err
  | setIamPolicy (op : Operation) (sr : ServiceResponse) (policy : Policy) (s1 s2 s3 s4 : σ)
      (h1 : P.createService rq s = (Except.ok op, s1))
      (h2 : P.operationPromise op s1 = (Except.ok sr, s2))
      (h3 : P.getIamPolicy sr.name s2 = (Except.ok policy, s3))
      (h4 : P.setIamPolicy sr.name (pushPublicInvoker policy) s3 = (Except.error err, s4)) :
      TryFails P rq s err

/-! ## Mock collaborators for concrete runs -/

/-- A scripted provider over the trivial state: each call answers with the
given outcome, whatever its arguments. -/
def scripted (projectId : Except JsError String) (created : Except JsError Operation)
    (completed : Except JsError ServiceResponse) (policy : Except JsError Policy)
    (written : Except JsError Unit) : Provider Unit :=
  { getProjectId := fun s => (projectId, s)
    createService := fun _ s => (created, s)
    operationPromise := fun _ s => (completed, s)
    getIamPolicy := fun _ s => (policy, s)
    setIamPolicy := fun _ _ s => (written, s) }

/-- A body whose `serviceName` is the empty string and whose
`HUMANITEC_TOKEN` is missing. -/
def emptyNameFields : List (String × JVal) :=
  [("serviceName", JVal.str ""), ("GOOGLE_API_KEY", JVal.str "key")]

/-- The service resource the mocks resolve to. -/
def demoService : ServiceResponse :=
  { name := "projects/proj-1/locations/us-central1/services/demo",
    uri := "https://demo.run.app" }

/-- The policy the mocks return. -/
def demoPolicy : Policy :=
  { version := 1,
    bindings := [{ role := "roles/run.admin", members := ["user:a@b.c"], condition := none }],
    etag := "abc" }

/-- A provider on which every call succeeds. -/
def happyProvider : Provider Unit :=
  scripted (Except.ok "proj-1") (Except.ok { name := "operations/op-1" })
    (Except.ok demoService) (Except.ok demoPolicy) (Except.ok ())

/-- A provider whose identity resolver throws. -/
def noProjectProvider : Provider Unit :=
  scripted (Except.error { code := JVal.undefined, message := "no credentials" })
    (Except.ok { name := "operations/op-1" }) (Except.ok demoService)
    (Except.ok demoPolicy) (Except.ok ())

/-- A provider on which `createService` throws `err`. -/
def createFailsProvider (err : JsError) : Provider Unit :=
  scripted (Except.ok "proj-1") (Except.error err) (Except.ok demoService)
    (Except.ok demoPolicy) (Except.ok ())

/-- A provider on which only `setIamPolicy` throws `err`. -/
def setPolicyFailsProvider (err : JsError) : Provider Unit :=
  scripted (Except.ok "proj-1") (Except.ok { name := "operations/op-1" })
    (Except.ok demoService) (Except.ok demoPolicy) (Except.error err)

/-- A body whose `HUMANITEC_TOKEN` is the empty string. -/
def emptyTokenFields : List (String × JVal) :=
  [("serviceName", JVal.str "demo"), ("HUMANITEC_TOKEN", JVal.str ""),
   ("GOOGLE_API_KEY", JVal.str "key")]

/-- The same body with `HUMANITEC_TOKEN` left out. -/
def missingTokenFields : List (String × JVal) :=
  [("serviceName", JVal.str "demo"), ("GOOGLE_API_KEY", JVal.str "key")]

/-- A well-formed request body. -/
def sampleFields : List (String × JVal) :=
  [("serviceName", JVal.str "demo"), ("HUMANITEC_TOKEN", JVal.str "tok"),
   ("GOOGLE_API_KEY", JVal.str "key")]

/-- A well-formed `POST` request. -/
def sampleRequest : Request :=
  { method := "POST", body := JVal.obj sampleFields }


/-! ## Basic facts -/

theorem strictEqNum_iff (v : JVal) (n : Int) : v.strictEqNum n = true ↔ v = JVal.num n := by
  cases v <;> simp [JVal.strictEqNum]

theorem invalidField_eq (v : JVal) : invalidField v = missingNotStringOrEmpty v := by
  cases v <;> simp [invalidField, missingNotStringOrEmpty, JVal.truthy, JVal.typeofIsString, bne]

theorem invalidField_str {s : String} (h : s ≠ "") : invalidField (JVal.str s) = false := by
  simp [invalidField, JVal.truthy, JVal.typeofIsString, h]

theorem invalidField_false_iff (v : JVal) :
    invalidField v = false ↔ ∃ s, v = JVal.str s ∧ s ≠ "" := by
  cases v <;> simp [invalidField, JVal.truthy, JVal.typeofIsString]

theorem missingOrNotString_invalid {v : JVal} (h : missingOrNotString v = true) :
    invalidField v = true := by
  cases v <;> simp_all [invalidField, missingOrNotString, JVal.truthy, JVal.typeofIsString]

/-- On a `POST` request whose body is an object the handler is the validation
chain over the three looked-up values. -/
theorem post_obj_eq {σ : Type} (P : Provider σ) (envKey : Option String)
    (fields : List (String × JVal)) (s : σ) :
    createCloudRunService P envKey { method := "POST", body := JVal.obj fields } s =
      if invalidField (JVal.lookup "serviceName" fields) then
        { response := some (sendText 400 (validationMessage "serviceName")),
          calls := [], state := s }
      else if invalidField (JVal.lookup "HUMANITEC_TOKEN" fields) then
        { response := some (sendText 400 (validationMessage "HUMANITEC_TOKEN")),
          calls := [], state := s }
      else if invalidField (JVal.lookup "GOOGLE_API_KEY" fields) then
        { response := some (sendText 400 (validationMessage "GOOGLE_API_KEY")),
          calls := [], state := s }
      else
        provision P envKey (JVal.lookup "serviceName" fields)
          (JVal.lookup "HUMANITEC_TOKEN" fields) (JVal.lookup "GOOGLE_API_KEY" fields) s := by
  have e1 : validationMessage "serviceName" =
      "Missing or invalid \"serviceName\" in request body." := by decide
  have e2 : validationMessage "HUMANITEC_TOKEN" =
      "Missing or invalid \"HUMANITEC_TOKEN\" in request body." := by decide
  have e3 : validationMessage "GOOGLE_API_KEY" =
      "Missing or invalid \"GOOGLE_API_KEY\" in request body." := by decide
  rw [e1, e2, e3]
  simp [createCloudRunService, JVal.getProp]

/-- A request that passes the validation reaches `provision` with its three
strings. -/
theorem valid_post_eq {σ : Type} (P : Provider σ) (envKey : Option String) (req : Request)
    (s : σ) {sn ht gk : String} (hv : ValidPost req sn ht gk) :
    createCloudRunService P envKey req s =
      provision P envKey (JVal.str sn) (JVal.str ht) (JVal.str gk) s := by
  obtain ⟨hm, h1, h2, h3, n1, n2, n3⟩ := hv
  simp [createCloudRunService, hm, h1, h2, h3, invalidField_str n1, invalidField_str n2,
    invalidField_str n3]

theorem provision_of_getProjectId_error {σ : Type} (P : Provider σ) (envKey : Option String)
    (a b c : JVal) (s s1 : σ) (e : JsError) (h : P.getProjectId s = (Except.error e, s1)) :
    provision P envKey a b c s =
      { response := some (sendText 500 "Could not determine Google Cloud Project ID."),
        calls := [Call.getProjectId], state := s1 } := by
  simp [provision, h]

theorem provision_of_env_none {σ : Type} (P : Provider σ)
    (a b c : JVal) (s s1 : σ) (pid : String) (h : P.getProjectId s = (Except.ok pid, s1)) :
    provision P none a b c s =
      { response :=
          some (sendText 500 "Server configuration error: Missing service account key."),
        calls := [Call.getProjectId], state := s1 } := by
  simp [provision, h, JVal.truthy]

theorem provision_of_env_empty {σ : Type} (P : Provider σ)
    (a b c : JVal) (s s1 : σ) (pid : String) (h : P.getProjectId s = (Except.ok pid, s1)) :
    provision P (some "") a b c s =
      { response :=
          some (sendText 500 "Server configuration error: Missing service account key."),
        calls := [Call.getProjectId], state := s1 } := by
  simp [provision, h, JVal.truthy]

theorem provision_of_env_some {σ : Type} (P : Provider σ) (k : String) (hk : k ≠ "")
    (a b c : JVal) (s s1 : σ) (pid : String) (h : P.getProjectId s = (Except.ok pid, s1)) :
    provision P (some k) a b c s =
      match tryBlock P a (createServiceRequest pid a b c (JVal.str k)) s1 with
      | (Except.ok response, calls, s2) =>
        { response := some response, calls := Call.getProjectId :: calls, state := s2 }
      | (Except.error err, calls, s2) =>
        { response := some (catchBlock a err),
          calls := Call.getProjectId :: calls, state := s2 } := by
  simp [provision, h, JVal.truthy, hk]

/-! ### The `try` block, outcome by outcome -/

theorem tryBlock_of_createService_error {σ : Type} (P : Provider σ) (sn : JVal)
    (rq : CreateServiceRequest) (s0 s1 : σ) (e : JsError)
    (h : P.createService rq s0 = (Except.error e, s1)) :
    tryBlock P sn rq s0 = (Except.error e, [Call.createService rq], s1) := by
  simp [tryBlock, h]

theorem tryBlock_of_operationPromise_error {σ : Type} (P : Provider σ) (sn : JVal)
    (rq : CreateServiceRequest) (s0 s1 s2 : σ) (op : Operation) (e : JsError)
    (h1 : P.createService rq s0 = (Except.ok op, s1))
    (h2 : P.operationPromise op s1 = (Except.error e, s2)) :
    tryBlock P sn rq s0 =
      (Except.error e, [Call.createService rq, Call.operationPromise op], s2) := by
  simp [tryBlock, h1, h2]

theorem tryBlock_of_getIamPolicy_error {σ : Type} (P : Provider σ) (sn : JVal)
    (rq : CreateServiceRequest) (s0 s1 s2 s3 : σ) (op : Operation) (sr : ServiceResponse)
    (e : JsError)
    (h1 : P.createService rq s0 = (Except.ok op, s1))
    (h2 : P.operationPromise op s1 = (Except.ok sr, s2))
    (h3 : P.getIamPolicy sr.name s2 = (Except.error e, s3)) :
    tryBlock P sn rq s0 =
      (Except.error e,
        [Call.createService rq, Call.operationPromise op, Call.getIamPolicy sr.name], s3) := by
  simp [tryBlock, h1, h2, h3]

theorem tryBlock_of_setIamPolicy_error {σ : Type} (P : Provider σ) (sn : JVal)
    (rq : CreateServiceRequest) (s0 s1 s2 s3 s4 : σ) (op : Operation) (sr : ServiceResponse)
    (pol : Policy) (e : JsError)
    (h1 : P.createService rq s0 = (Except.ok op, s1))
    (h2 : P.operationPromise op s1 = (Except.ok sr, s2))
    (h3 : P.getIamPolicy sr.name s2 = (Except.ok pol, s3))
    (h4 : P.setIamPolicy sr.name (pushPublicInvoker pol) s3 = (Except.error e, s4)) :
    tryBlock P sn rq s0 =
      (Except.error e,
        [Call.createService rq, Call.operationPromise op, Call.getIamPolicy sr.name,
         Call.setIamPolicy sr.name (pushPublicInvoker pol)], s4) := by
  simp [tryBlock, h1, h2, h3, h4]

theorem tryBlock_of_success {σ : Type} (P : Provider σ) (sn : JVal)
    (rq : CreateServiceRequest) (s0 s1 s2 s3 s4 : σ) (op : Operation) (sr : ServiceResponse)
    (pol : Policy)
    (h1 : P.createService rq s0 = (Except.ok op, s1))
    (h2 : P.operationPromise op s1 = (Except.ok sr, s2))
    (h3 : P.getIamPolicy sr.name s2 = (Except.ok pol, s3))
    (h4 : P.setIamPolicy sr.name (pushPublicInvoker pol) s3 = (Except.ok (), s4)) :
    tryBlock P sn rq s0 =
      (Except.ok (successResponse sn sr),
        [Call.createService rq, Call.operationPromise op, Call.getIamPolicy sr.name,
         Call.setIamPolicy sr.name (pushPublicInvoker pol)], s4) := by
  simp [tryBlock, h1, h2, h3, h4]

/-- A failing step makes the `try` block end with that error. -/
theorem tryBlock_of_fails {σ : Type} (P : Provider σ) (sn : JVal)
    (rq : CreateServiceRequest) (s0 : σ) (e : JsError) (hf : TryFails P rq s0 e) :
    ∃ calls s1, tryBlock P sn rq s0 = (Except.error e, calls, s1) := by
  cases hf with
  | createService s1 h => exact ⟨_, _, tryBlock_of_createService_error P sn rq s0 s1 e h⟩
  | operationPromise op s1 s2 h1 h2 =>
    exact ⟨_, _, tryBlock_of_operationPromise_error P sn rq s0 s1 s2 op e h1 h2⟩
  | getIamPolicy op sr s1 s2 s3 h1 h2 h3 =>
    exact ⟨_, _, tryBlock_of_getIamPolicy_error P sn rq s0 s1 s2 s3 op sr e h1 h2 h3⟩
  | setIamPolicy op sr pol s1 s2 s3 s4 h1 h2 h3 h4 =>
    exact ⟨_, _, tryBlock_of_setIamPolicy_error P sn rq s0 s1 s2 s3 s4 op sr pol e h1 h2 h3 h4⟩

/-- The `try` block ends in exactly one of five ways. -/
theorem tryBlock_cases {σ : Type} (P : Provider σ) (sn : JVal)
    (rq : CreateServiceRequest) (s0 : σ) :
    (∃ e calls s1, tryBlock P sn rq s0 = (Except.error e, calls, s1) ∧
        (∀ rq1, Call.createService rq1 ∈ calls → rq1 = rq)) ∨
    (∃ op sr pol s1 s2 s3 s4,
        P.createService rq s0 = (Except.ok op, s1) ∧
        P.operationPromise op s1 = (Except.ok sr, s2) ∧
        P.getIamPolicy sr.name s2 = (Except.ok pol, s3) ∧
        P.setIamPolicy sr.name (pushPublicInvoker pol) s3 = (Except.ok (), s4) ∧
        tryBlock P sn rq s0 =
          (Except.ok (successResponse sn sr),
            [Call.createService rq, Call.operationPromise op, Call.getIamPolicy sr.name,
             Call.setIamPolicy sr.name (pushPublicInvoker pol)], s4)) := by
  rcases h1 : P.createService rq s0 with ⟨e | op, s1⟩
  · left
    refine ⟨e, _, s1, tryBlock_of_createService_error P sn rq s0 s1 e h1, ?_⟩
    intro rq1 hm
    simpa using hm
  rcases h2 : P.operationPromise op s1 with ⟨e | sr, s2⟩
  · left
    refine ⟨e, _, s2, tryBlock_of_operationPromise_error P sn rq s0 s1 s2 op e h1 h2, ?_⟩
    intro rq1 hm
    simpa using hm
  rcases h3 : P.getIamPolicy sr.name s2 with ⟨e | pol, s3⟩
  · left
    refine ⟨e, _, s3, tryBlock_of_getIamPolicy_error P sn rq s0 s1 s2 s3 op sr e h1 h2 h3, ?_⟩
    intro rq1 hm
    simpa using hm
  rcases h4 : P.setIamPolicy sr.name (pushPublicInvoker pol) s3 with ⟨e | u, s4⟩
  · left
    refine ⟨e, _, s4,
      tryBlock_of_setIamPolicy_error P sn rq s0 s1 s2 s3 s4 op sr pol e h1 h2 h3 h4, ?_⟩
    intro rq1 hm
    simpa using hm
  · right
    cases u
    exact ⟨op, sr, pol, s1, s2, s3, s4, rfl, h2, h3, h4,
      tryBlock_of_success P sn rq s0 s1 s2 s3 s4 op sr pol h1 h2 h3 h4⟩

/-! ### The `catch` block -/

theorem strictEqNum_eq_false {v : JVal} {n : Int} (h : v ≠ JVal.num n) :
    v.strictEqNum n = false := by
  rw [Bool.eq_false_iff]
  intro h1
  exact h ((strictEqNum_iff v n).1 h1)

theorem catchBlock_status (sn : JVal) (err : JsError) :
    (catchBlock sn err).status =
      if err.code.strictEqNum 6 then 409 else if err.code.strictEqNum 7 then 403 else 500 := by
  unfold catchBlock
  cases h6 : err.code.strictEqNum 6
  · cases h7 : err.code.strictEqNum 7 <;> simp [sendText]
  · simp [sendText]

theorem catchBlock_status_ne_200 (sn : JVal) (err : JsError) :
    (catchBlock sn err).status ≠ 200 := by
  rw [catchBlock_status]
  split
  · decide
  · split <;> decide

theorem catchBlock_other (sn : String) (err : JsError)
    (h6 : err.code ≠ JVal.num 6) (h7 : err.code ≠ JVal.num 7) :
    catchBlock (JVal.str sn) err =
      sendText 500
        ("Failed to create or configure service " ++ sn ++ ". Error: " ++ err.message) := by
  have e : ". Error: " = "." ++ " Error: " := by decide
  rw [e]
  simp [catchBlock, strictEqNum_eq_false h6, strictEqNum_eq_false h7, JVal.toTemplateString,
    String.append_assoc]

/-! ### The handler as a whole -/

/-- Every call made by `provision` starts with the project-id lookup. -/
theorem provision_calls_head {σ : Type} (P : Provider σ) (envKey : Option String)
    (a b c : JVal) (s : σ) :
    ∃ rest, (provision P envKey a b c s).calls = Call.getProjectId :: rest := by
  rcases h : P.getProjectId s with ⟨_ | pid, s1⟩
  · rw [provision_of_getProjectId_error P envKey a b c s s1 _ h]; exact ⟨[], rfl⟩
  · rcases envKey with _ | k
    · rw [provision_of_env_none P a b c s s1 pid h]; exact ⟨[], rfl⟩
    · by_cases hk : k = ""
      · subst hk
        rw [provision_of_env_empty P a b c s s1 pid h]; exact ⟨[], rfl⟩
      · rw [provision_of_env_some P k hk a b c s s1 pid h]
        split <;> exact ⟨_, rfl⟩

/-- After the project-id lookup `provision` either stops with a 500, having
called the resolver only, or runs the `try` block with a non-empty key. -/
theorem provision_cases {σ : Type} (P : Provider σ) (envKey : Option String)
    (a b c : JVal) (s : σ) :
    ((provision P envKey a b c s).calls = [Call.getProjectId] ∧
      ∃ text, (provision P envKey a b c s).response = some (sendText 500 text)) ∨
    (∃ pid s1 k, P.getProjectId s = (Except.ok pid, s1) ∧ envKey = some k ∧ k ≠ "" ∧
      provision P envKey a b c s =
        match tryBlock P a (createServiceRequest pid a b c (JVal.str k)) s1 with
        | (Except.ok response, calls, s2) =>
          { response := some response, calls := Call.getProjectId :: calls, state := s2 }
        | (Except.error err, calls, s2) =>
          { response := some (catchBlock a err),
            calls := Call.getProjectId :: calls, state := s2 }) := by
  rcases h : P.getProjectId s with ⟨e | pid, s1⟩
  · left
    rw [provision_of_getProjectId_error P envKey a b c s s1 e h]
    exact ⟨rfl, _, rfl⟩
  · rcases envKey with _ | k
    · left
      rw [provision_of_env_none P a b c s s1 pid h]
      exact ⟨rfl, _, rfl⟩
    · by_cases hk : k = ""
      · subst hk
        left
        rw [provision_of_env_empty P a b c s s1 pid h]
        exact ⟨rfl, _, rfl⟩
      · right
        exact ⟨pid, s1, k, rfl, rfl, hk, provision_of_env_some P k hk a b c s s1 pid h⟩

/-- A run of the handler either calls no collaborator and does not answer
200, or its request passes the validation. -/
theorem handler_cases {σ : Type} (P : Provider σ) (envKey : Option String)
    (req : Request) (s : σ) :
    ((createCloudRunService P envKey req s).calls = [] ∧
      ∀ resp, (createCloudRunService P envKey req s).response = some resp →
        resp.status ≠ 200) ∨
    ∃ sn ht gk, ValidPost req sn ht gk := by
  by_cases hO : req.method = "OPTIONS"
  · left
    simp [createCloudRunService, hO, sendText]
  by_cases hP : req.method = "POST"
  swap
  · left
    simp [createCloudRunService, hO, hP, sendText]
  have iu : invalidField JVal.undefined = true := rfl
  rcases req with ⟨m, body⟩
  simp only at hO hP
  subst hP
  cases body with
  | undefined => left; simp [createCloudRunService, JVal.getProp]
  | null => left; simp [createCloudRunService, JVal.getProp]
  | bool b => left; simp [createCloudRunService, JVal.getProp, iu, sendText]
  | num n => left; simp [createCloudRunService, JVal.getProp, iu, sendText]
  | str t => left; simp [createCloudRunService, JVal.getProp, iu, sendText]
  | arr items => left; simp [createCloudRunService, JVal.getProp, iu, sendText]
  | obj fields =>
    by_cases h1 : invalidField (JVal.lookup "serviceName" fields) = true
    · left
      rw [post_obj_eq]
      simp [h1, sendText]
    by_cases h2 : invalidField (JVal.lookup "HUMANITEC_TOKEN" fields) = true
    · left
      rw [post_obj_eq]
      simp [h1, h2, sendText]
    by_cases h3 : invalidField (JVal.lookup "GOOGLE_API_KEY" fields) = true
    · left
      rw [post_obj_eq]
      simp [h1, h2, h3, sendText]
    right
    obtain ⟨sn, e1, n1⟩ := (invalidField_false_iff _).1 (Bool.eq_false_iff.2 h1)
    obtain ⟨ht, e2, n2⟩ := (invalidField_false_iff _).1 (Bool.eq_false_iff.2 h2)
    obtain ⟨gk, e3, n3⟩ := (invalidField_false_iff _).1 (Bool.eq_false_iff.2 h3)
    exact ⟨sn, ht, gk, rfl, by simp [JVal.getProp, e1], by simp [JVal.getProp, e2],
      by simp [JVal.getProp, e3], n1, n2, n3⟩

/-! ## The method gate -/

/-- C7: a request whose method is `OPTIONS`, whatever its body, gets status 204
with an empty body and the three CORS headers, and no collaborator is called. -/
theorem options_preflight {σ : Type} (P : Provider σ) (envKey : Option String)
    (req : Request) (s : σ) (h : req.method = "OPTIONS") :
    createCloudRunService P envKey req s =
      { response := some
          { status := 204,
            headers := [("Access-Control-Allow-Origin", "*"),
                        ("Access-Control-Allow-Methods", "POST, OPTIONS"),
                        ("Access-Control-Allow-Headers", "Content-Type")],
            body := ResBody.text "" },
        calls := [], state := s } := by
  simp [createCloudRunService, h, sendText, corsHeaders]

theorem options_preflight_witness :
    ({ method := "OPTIONS", body := JVal.obj sampleFields } : Request).method = "OPTIONS" ∧
    createCloudRunService happyProvider (some "blob")
        { method := "OPTIONS", body := JVal.obj sampleFields } () =
      { response := some
          { status := 204,
            headers := [("Access-Control-Allow-Origin", "*"),
                        ("Access-Control-Allow-Methods", "POST, OPTIONS"),
                        ("Access-Control-Allow-Headers", "Content-Type")],
            body := ResBody.text "" },
        calls := [], state := () } :=
  ⟨rfl, options_preflight happyProvider (some "blob")
    { method := "OPTIONS", body := JVal.obj sampleFields } () rfl⟩

/-- C8: a request whose method is neither `POST` nor `OPTIONS`, whatever its
body (a missing body included), gets status 405 with the text
`Method Not Allowed`, and no collaborator is called. -/
theorem other_method_not_allowed {σ : Type} (P : Provider σ) (envKey : Option String)
    (req : Request) (s : σ) (hpost : req.method ≠ "POST") (hopt : req.method ≠ "OPTIONS") :
    createCloudRunService P envKey req s =
      { response := some
          { status := 405, headers := corsHeaders, body := ResBody.text "Method Not Allowed" },
        calls := [], state := s } := by
  simp [createCloudRunService, hpost, hopt, sendText]

theorem other_method_not_allowed_witness :
    ({ method := "GET", body := JVal.undefined } : Request).method ≠ "POST" ∧
    ({ method := "GET", body := JVal.undefined } : Request).method ≠ "OPTIONS" ∧
    createCloudRunService happyProvider (some "blob")
        { method := "GET", body := JVal.undefined } () =
      { response := some
          { status := 405, headers := corsHeaders, body := ResBody.text "Method Not Allowed" },
        calls := [], state := () } :=
  ⟨by decide, by decide,
    other_method_not_allowed happyProvider (some "blob")
      { method := "GET", body := JVal.undefined } () (by decide) (by decide)⟩

/-! ## Validation -/

/-- C1, as stated, fails: with `serviceName` the empty string and
`HUMANITEC_TOKEN` missing, the first field that is missing or not a string is
`HUMANITEC_TOKEN`, yet the 400 names `serviceName`. -/
theorem first_missing_field_counterexample :
    firstField missingOrNotString emptyNameFields = some "HUMANITEC_TOKEN" ∧
    (createCloudRunService happyProvider (some "blob")
        { method := "POST", body := JVal.obj emptyNameFields } ()).response =
      some (sendText 400 (validationMessage "serviceName")) ∧
    (createCloudRunService happyProvider (some "blob")
        { method := "POST", body := JVal.obj emptyNameFields } ()).response ≠
      some (sendText 400 (validationMessage "HUMANITEC_TOKEN")) := by
  refine ⟨by decide, rfl, ?_⟩
  intro h
  have h1 : (createCloudRunService happyProvider (some "blob")
        { method := "POST", body := JVal.obj emptyNameFields } ()).response =
      some (sendText 400 (validationMessage "serviceName")) := rfl
  rw [h1] at h
  simp only [Option.some.injEq, sendText, Response.mk.injEq, ResBody.text.injEq] at h
  exact absurd h.2.2 (by decide)

/-- C1, amended: on a `POST` request whose body is an object in which one of
the three fields is missing or not a string, the handler answers 400 with the
message naming the first field, in the order `serviceName`, `HUMANITEC_TOKEN`,
`GOOGLE_API_KEY`, that is missing, not a string, or the empty string; it sends
that one message only and calls no collaborator. -/
theorem validation_rejects_first_bad_field {σ : Type} (P : Provider σ)
    (envKey : Option String) (fields : List (String × JVal)) (s : σ)
    (h : missingOrNotString (JVal.lookup "serviceName" fields) = true ∨
         missingOrNotString (JVal.lookup "HUMANITEC_TOKEN" fields) = true ∨
         missingOrNotString (JVal.lookup "GOOGLE_API_KEY" fields) = true) :
    ∃ f, firstField missingNotStringOrEmpty fields = some f ∧
      createCloudRunService P envKey { method := "POST", body := JVal.obj fields } s =
        { response := some
            { status := 400, headers := corsHeaders,
              body := ResBody.text ("Missing or invalid \"" ++ f ++ "\" in request body.") },
          calls := [], state := s } := by
  rw [post_obj_eq]
  simp only [firstField, ← invalidField_eq]
  by_cases h1 : invalidField (JVal.lookup "serviceName" fields) = true
  · exact ⟨"serviceName", by simp [h1], by simp [h1, sendText, validationMessage]⟩
  by_cases h2 : invalidField (JVal.lookup "HUMANITEC_TOKEN" fields) = true
  · exact ⟨"HUMANITEC_TOKEN", by simp [h1, h2], by simp [h1, h2, sendText, validationMessage]⟩
  by_cases h3 : invalidField (JVal.lookup "GOOGLE_API_KEY" fields) = true
  · exact ⟨"GOOGLE_API_KEY", by simp [h1, h2, h3],
      by simp [h1, h2, h3, sendText, validationMessage]⟩
  rcases h with h | h | h
  · exact absurd (missingOrNotString_invalid h) h1
  · exact absurd (missingOrNotString_invalid h) h2
  · exact absurd (missingOrNotString_invalid h) h3

theorem validation_rejects_first_bad_field_witness :
    (missingOrNotString (JVal.lookup "serviceName" emptyNameFields) = true ∨
     missingOrNotString (JVal.lookup "HUMANITEC_TOKEN" emptyNameFields) = true ∨
     missingOrNotString (JVal.lookup "GOOGLE_API_KEY" emptyNameFields) = true) ∧
    ∃ f, firstField missingNotStringOrEmpty emptyNameFields = some f ∧
      createCloudRunService happyProvider (some "blob")
          { method := "POST", body := JVal.obj emptyNameFields } () =
        { response := some
            { status := 400, headers := corsHeaders,
              body := ResBody.text ("Missing or invalid \"" ++ f ++ "\" in request body.") },
          calls := [], state := () } :=
  ⟨Or.inr (Or.inl (by decide)),
    validation_rejects_first_bad_field happyProvider (some "blob") emptyNameFields ()
      (Or.inr (Or.inl (by decide)))⟩

/-- C10: on a `POST` request whose body is an object, the handler goes on to
the identity resolver exactly when `serviceName`, `HUMANITEC_TOKEN` and
`GOOGLE_API_KEY` are all non-empty strings; and a body in which one of the
three fields is the empty string gets the very result, a 400 with a
`Missing or invalid` message and no call, of the body in which that field is
missing and the other two are the same. -/
theorem validation_passes_iff_nonempty_strings {σ : Type} (P : Provider σ)
    (envKey : Option String) (fields : List (String × JVal)) (s : σ) :
    ((∃ rest, (createCloudRunService P envKey
          { method := "POST", body := JVal.obj fields } s).calls = Call.getProjectId :: rest) ↔
      ∃ sn ht gk, JVal.lookup "serviceName" fields = JVal.str sn ∧ sn ≠ "" ∧
        JVal.lookup "HUMANITEC_TOKEN" fields = JVal.str ht ∧ ht ≠ "" ∧
        JVal.lookup "GOOGLE_API_KEY" fields = JVal.str gk ∧ gk ≠ "") ∧
    (∀ (k : String) (fields1 : List (String × JVal)),
      (k = "serviceName" ∨ k = "HUMANITEC_TOKEN" ∨ k = "GOOGLE_API_KEY") →
      JVal.lookup k fields = JVal.str "" →
      JVal.lookup k fields1 = JVal.undefined →
      (∀ k1, k1 ≠ k → JVal.lookup k1 fields1 = JVal.lookup k1 fields) →
      createCloudRunService P envKey { method := "POST", body := JVal.obj fields1 } s =
        createCloudRunService P envKey { method := "POST", body := JVal.obj fields } s ∧
      ∃ f, createCloudRunService P envKey { method := "POST", body := JVal.obj fields } s =
        { response := some (sendText 400 (validationMessage f)), calls := [], state := s }) := by
  constructor
  · rw [post_obj_eq]
    constructor
    · intro hc
      by_cases h1 : invalidField (JVal.lookup "serviceName" fields) = true
      · simp [h1] at hc
      by_cases h2 : invalidField (JVal.lookup "HUMANITEC_TOKEN" fields) = true
      · simp [h1, h2] at hc
      by_cases h3 : invalidField (JVal.lookup "GOOGLE_API_KEY" fields) = true
      · simp [h1, h2, h3] at hc
      obtain ⟨sn, e1, n1⟩ := (invalidField_false_iff _).1 (Bool.eq_false_iff.2 h1)
      obtain ⟨ht, e2, n2⟩ := (invalidField_false_iff _).1 (Bool.eq_false_iff.2 h2)
      obtain ⟨gk, e3, n3⟩ := (invalidField_false_iff _).1 (Bool.eq_false_iff.2 h3)
      exact ⟨sn, ht, gk, e1, n1, e2, n2, e3, n3⟩
    · rintro ⟨sn, ht, gk, e1, n1, e2, n2, e3, n3⟩
      rw [e1, e2, e3]
      simp only [invalidField_str n1, invalidField_str n2, invalidField_str n3]
      exact provision_calls_head P envKey _ _ _ s
  · intro k fields1 hk hempty hmissing hsame
    have iu : invalidField JVal.undefined = true := rfl
    have ie : invalidField (JVal.str "") = true := rfl
    rw [post_obj_eq, post_obj_eq]
    rcases hk with hk | hk | hk
    · subst hk
      rw [hempty, hmissing]
      simp only [iu, ie, if_true]
      exact ⟨trivial, "serviceName", rfl⟩
    · subst hk
      rw [hempty, hmissing, hsame "serviceName" (by decide)]
      simp only [iu, ie, if_true]
      refine ⟨trivial, ?_⟩
      by_cases h1 : invalidField (JVal.lookup "serviceName" fields) = true
      · exact ⟨"serviceName", by simp [h1]⟩
      · exact ⟨"HUMANITEC_TOKEN", by simp [h1]⟩
    · subst hk
      rw [hempty, hmissing, hsame "serviceName" (by decide),
        hsame "HUMANITEC_TOKEN" (by decide)]
      simp only [iu, ie, if_true]
      refine ⟨trivial, ?_⟩
      by_cases h1 : invalidField (JVal.lookup "serviceName" fields) = true
      · exact ⟨"serviceName", by simp [h1]⟩
      by_cases h2 : invalidField (JVal.lookup "HUMANITEC_TOKEN" fields) = true
      · exact ⟨"HUMANITEC_TOKEN", by simp [h1, h2]⟩
      · exact ⟨"GOOGLE_API_KEY", by simp [h1, h2]⟩

theorem validation_passes_iff_nonempty_strings_witness :
    ("HUMANITEC_TOKEN" = "serviceName" ∨ "HUMANITEC_TOKEN" = "HUMANITEC_TOKEN" ∨
      "HUMANITEC_TOKEN" = "GOOGLE_API_KEY") ∧
    JVal.lookup "HUMANITEC_TOKEN" emptyTokenFields = JVal.str "" ∧
    JVal.lookup "HUMANITEC_TOKEN" missingTokenFields = JVal.undefined ∧
    (createCloudRunService happyProvider (some "blob")
        { method := "POST", body := JVal.obj missingTokenFields } () =
      createCloudRunService happyProvider (some "blob")
        { method := "POST", body := JVal.obj emptyTokenFields } () ∧
      ∃ f, createCloudRunService happyProvider (some "blob")
          { method := "POST", body := JVal.obj emptyTokenFields } () =
        { response := some (sendText 400 (validationMessage f)), calls := [], state := () }) :=
  ⟨Or.inr (Or.inl rfl), rfl, rfl,
    (validation_passes_iff_nonempty_strings happyProvider (some "blob") emptyTokenFields ()).2
      "HUMANITEC_TOKEN" missingTokenFields (Or.inr (Or.inl rfl)) rfl rfl
      (by
        intro k1 hk1
        simp only [missingTokenFields, emptyTokenFields, JVal.lookup]
        by_cases h : "serviceName" = k1
        · simp [h]
        · have hk2 : ¬ "HUMANITEC_TOKEN" = k1 := fun e => hk1 e.symm
          simp [h, hk2])⟩

/-! ## Configuration errors -/

theorem sampleRequest_valid : ValidPost sampleRequest "demo" "tok" "key" := by
  constructor <;> first | rfl | decide

/-- C5: on a `POST` request that passes the validation, when the identity
resolver throws, whatever the error, the handler answers 500 with the fixed
text `Could not determine Google Cloud Project ID.` and has called the
resolver only: no `createService`, `getIamPolicy` or `setIamPolicy`. -/
theorem project_id_failure {σ : Type} (P : Provider σ) (envKey : Option String)
    (req : Request) (s s1 : σ) (sn ht gk : String) (e : JsError)
    (hv : ValidPost req sn ht gk) (hpid : P.getProjectId s = (Except.error e, s1)) :
    createCloudRunService P envKey req s =
      { response := some
          { status := 500, headers := corsHeaders,
            body := ResBody.text "Could not determine Google Cloud Project ID." },
        calls := [Call.getProjectId], state := s1 } := by
  rw [valid_post_eq P envKey req s hv, provision_of_getProjectId_error P envKey _ _ _ s s1 e hpid]
  rfl

theorem project_id_failure_witness :
    ValidPost sampleRequest "demo" "tok" "key" ∧
    noProjectProvider.getProjectId () =
      (Except.error { code := JVal.undefined, message := "no credentials" }, ()) ∧
    createCloudRunService noProjectProvider (some "blob") sampleRequest () =
      { response := some
          { status := 500, headers := corsHeaders,
            body := ResBody.text "Could not determine Google Cloud Project ID." },
        calls := [Call.getProjectId], state := () } :=
  ⟨sampleRequest_valid, rfl,
    project_id_failure noProjectProvider (some "blob") sampleRequest () () "demo" "tok" "key"
      { code := JVal.undefined, message := "no credentials" } sampleRequest_valid rfl⟩

/-- C4, as stated, fails: with the credential variable unset and the identity
resolver throwing, a request that passes the validation gets the project-id
text, not `Server configuration error: Missing service account key.` -/
theorem missing_key_text_counterexample :
    ValidPost sampleRequest "demo" "tok" "key" ∧
    (createCloudRunService noProjectProvider none sampleRequest ()).response =
      some (sendText 500 "Could not determine Google Cloud Project ID.") ∧
    (createCloudRunService noProjectProvider none sampleRequest ()).response ≠
      some (sendText 500 "Server configuration error: Missing service account key.") := by
  refine ⟨sampleRequest_valid, rfl, ?_⟩
  intro h
  have h1 : (createCloudRunService noProjectProvider none sampleRequest ()).response =
      some (sendText 500 "Could not determine Google Cloud Project ID.") := rfl
  rw [h1] at h
  simp only [Option.some.injEq, sendText, Response.mk.injEq, ResBody.text.injEq] at h
  exact absurd h.2.2 (by decide)

/-- C4, amended: on a `POST` request that passes the validation, with
`GOOGLE_ENVIRONMENT_VARIABLES` unset, the handler answers 500 and calls the
identity resolver only (never `createService`, `getIamPolicy` or
`setIamPolicy`); the text is
`Server configuration error: Missing service account key.` when the identity
resolver returned a project id. -/
theorem missing_key_is_500 {σ : Type} (P : Provider σ) (req : Request) (s : σ)
    (sn ht gk : String) (hv : ValidPost req sn ht gk) :
    (createCloudRunService P none req s).calls = [Call.getProjectId] ∧
    (∃ resp, (createCloudRunService P none req s).response = some resp ∧ resp.status = 500) ∧
    (∀ pid s1, P.getProjectId s = (Except.ok pid, s1) →
      createCloudRunService P none req s =
        { response := some
            { status := 500, headers := corsHeaders,
              body := ResBody.text "Server configuration error: Missing service account key." },
          calls := [Call.getProjectId], state := s1 }) := by
  rw [valid_post_eq P none req s hv]
  rcases h : P.getProjectId s with ⟨e | pid, s1⟩
  · rw [provision_of_getProjectId_error P none _ _ _ s s1 e h]
    refine ⟨rfl, ⟨_, rfl, rfl⟩, ?_⟩
    intro pid s2 h2
    simp at h2
  · rw [provision_of_env_none P _ _ _ s s1 pid h]
    refine ⟨rfl, ⟨_, rfl, rfl⟩, ?_⟩
    intro pid2 s2 h2
    simp only [Prod.mk.injEq, Except.ok.injEq] at h2
    obtain ⟨-, rfl⟩ := h2
    rfl

theorem missing_key_is_500_witness :
    ValidPost sampleRequest "demo" "tok" "key" ∧
    happyProvider.getProjectId () = (Except.ok "proj-1", ()) ∧
    createCloudRunService happyProvider none sampleRequest () =
      { response := some
          { status := 500, headers := corsHeaders,
            body := ResBody.text "Server configuration error: Missing service account key." },
        calls := [Call.getProjectId], state := () } :=
  ⟨sampleRequest_valid, rfl,
    (missing_key_is_500 happyProvider sampleRequest () "demo" "tok" "key"
      sampleRequest_valid).2.2 "proj-1" () rfl⟩

/-! ## Creation and publication -/

/-- C2: on a `POST` request that passes the validation, with the project id
resolved and the credential variable set, when `createService`, the awaited
operation, `getIamPolicy` and `setIamPolicy` all succeed, the handler answers
200 with a JSON body whose `serviceUrl` is the `uri` and whose `serviceName`
is the `name` of the completed operation, and the policy handed to
`setIamPolicy` has the bindings returned by `getIamPolicy` followed by the
one binding of role `roles/run.invoker` with members `allUsers`. -/
theorem success_response {σ : Type} (P : Provider σ) (req : Request)
    (s s1 s2 s3 s4 s5 : σ) (sn ht gk k pid : String) (op : Operation) (sr : ServiceResponse)
    (pol : Policy) (hv : ValidPost req sn ht gk) (hk : k ≠ "")
    (hpid : P.getProjectId s = (Except.ok pid, s1))
    (hcreate : P.createService
      (createServiceRequest pid (JVal.str sn) (JVal.str ht) (JVal.str gk) (JVal.str k)) s1 =
        (Except.ok op, s2))
    (hop : P.operationPromise op s2 = (Except.ok sr, s3))
    (hget : P.getIamPolicy sr.name s3 = (Except.ok pol, s4))
    (hset : P.setIamPolicy sr.name (pushPublicInvoker pol) s4 = (Except.ok (), s5)) :
    (∃ resp message, (createCloudRunService P (some k) req s).response = some resp ∧
      resp.status = 200 ∧
      resp.body = ResBody.json (JVal.obj
        [("message", JVal.str message), ("serviceUrl", JVal.str sr.uri),
         ("serviceName", JVal.str sr.name)])) ∧
    (∃ rq written, (createCloudRunService P (some k) req s).calls =
        [Call.getProjectId, Call.createService rq, Call.operationPromise op,
         Call.getIamPolicy sr.name, Call.setIamPolicy sr.name written] ∧
      written.bindings = pol.bindings ++
        [{ role := "roles/run.invoker", members := ["allUsers"], condition := none }] ∧
      written.version = pol.version ∧ written.etag = pol.etag) := by
  rw [valid_post_eq P (some k) req s hv, provision_of_env_some P k hk _ _ _ s s1 pid hpid,
    tryBlock_of_success P _ _ s1 s2 s3 s4 s5 op sr pol hcreate hop hget hset]
  exact ⟨⟨_, _, rfl, rfl, rfl⟩, ⟨_, _, rfl, rfl, rfl, rfl⟩⟩

theorem success_response_witness :
    ValidPost sampleRequest "demo" "tok" "key" ∧
    (∃ resp message,
      (createCloudRunService happyProvider (some "blob") sampleRequest ()).response =
        some resp ∧
      resp.status = 200 ∧
      resp.body = ResBody.json (JVal.obj
        [("message", JVal.str message), ("serviceUrl", JVal.str demoService.uri),
         ("serviceName", JVal.str demoService.name)])) ∧
    (∃ rq written, (createCloudRunService happyProvider (some "blob") sampleRequest ()).calls =
        [Call.getProjectId, Call.createService rq,
         Call.operationPromise { name := "operations/op-1" },
         Call.getIamPolicy demoService.name, Call.setIamPolicy demoService.name written] ∧
      written.bindings = demoPolicy.bindings ++
        [{ role := "roles/run.invoker", members := ["allUsers"], condition := none }] ∧
      written.version = demoPolicy.version ∧ written.etag = demoPolicy.etag) :=
  ⟨sampleRequest_valid,
    success_response happyProvider sampleRequest () () () () () () "demo" "tok" "key" "blob"
      "proj-1" { name := "operations/op-1" } demoService demoPolicy sampleRequest_valid
      (by decide) rfl rfl rfl rfl rfl⟩

/-- C3: on a `POST` request that passes the validation, with the project id
resolved and the credential variable set, when a step of the `try` block
(`createService`, awaiting the operation, `getIamPolicy`, `setIamPolicy`)
throws `err`, the status is decided by `err.code` alone: 409 for the number 6,
403 for the number 7, 500 for anything else, an absent code included; with
500 the text is `Failed to create or configure service <serviceName>.`
followed by ` Error: ` and `err.message`. -/
theorem error_mapping {σ : Type} (P : Provider σ) (req : Request) (s s1 : σ)
    (sn ht gk k pid : String) (err : JsError) (hv : ValidPost req sn ht gk) (hk : k ≠ "")
    (hpid : P.getProjectId s = (Except.ok pid, s1))
    (hfail : TryFails P
      (createServiceRequest pid (JVal.str sn) (JVal.str ht) (JVal.str gk) (JVal.str k)) s1 err) :
    ∃ resp, (createCloudRunService P (some k) req s).response = some resp ∧
      (err.code = JVal.num 6 → resp.status = 409) ∧
      (err.code = JVal.num 7 → resp.status = 403) ∧
      (err.code ≠ JVal.num 6 → err.code ≠ JVal.num 7 →
        resp.status = 500 ∧
        resp.body = ResBody.text
          ("Failed to create or configure service " ++ sn ++ ". Error: " ++ err.message)) := by
  obtain ⟨calls, s2, ht2⟩ := tryBlock_of_fails P (JVal.str sn) _ s1 err hfail
  rw [valid_post_eq P (some k) req s hv, provision_of_env_some P k hk _ _ _ s s1 pid hpid, ht2]
  refine ⟨catchBlock (JVal.str sn) err, rfl, ?_, ?_, ?_⟩
  · intro h6
    rw [catchBlock_status, h6]
    rfl
  · intro h7
    rw [catchBlock_status, h7]
    rfl
  · intro h6 h7
    rw [catchBlock_other sn err h6 h7]
    exact ⟨rfl, rfl⟩

theorem error_mapping_witness :
    ValidPost sampleRequest "demo" "tok" "key" ∧
    ∃ resp, (createCloudRunService
        (createFailsProvider { code := JVal.str "6", message := "boom" }) (some "blob")
        sampleRequest ()).response = some resp ∧
      (JVal.str "6" = JVal.num 6 → resp.status = 409) ∧
      (JVal.str "6" = JVal.num 7 → resp.status = 403) ∧
      (JVal.str "6" ≠ JVal.num 6 → JVal.str "6" ≠ JVal.num 7 →
        resp.status = 500 ∧
        resp.body = ResBody.text
          ("Failed to create or configure service " ++ "demo" ++ ". Error: " ++ "boom")) :=
  ⟨sampleRequest_valid,
    error_mapping (createFailsProvider { code := JVal.str "6", message := "boom" })
      sampleRequest () () "demo" "tok" "key" "blob" "proj-1"
      { code := JVal.str "6", message := "boom" } sampleRequest_valid (by decide) rfl
      (TryFails.createService () rfl)⟩

/-- C6: whenever the handler calls `createService`, the service definition has
exactly one container, and its `env` is, in this order, `ENABLE_MCP` = `true`,
`DEFAULT_MODEL` = `gemini-2.5-pro-preview-03-25`, `HUMANITEC_TOKEN` = the
request's `HUMANITEC_TOKEN`, `GOOGLE_API_KEY` = the request's
`GOOGLE_API_KEY`, `GCP_SERVICE_ACCOUNT_KEY_JSON` = the value of
`GOOGLE_ENVIRONMENT_VARIABLES`, the three values unchanged. -/
theorem createService_environment {σ : Type} (P : Provider σ) (envKey : Option String)
    (req : Request) (s : σ) (rq : CreateServiceRequest)
    (hcall : Call.createService rq ∈ (createCloudRunService P envKey req s).calls) :
    ∃ ht gk k image,
      req.body.getProp "HUMANITEC_TOKEN" = some (JVal.str ht) ∧
      req.body.getProp "GOOGLE_API_KEY" = some (JVal.str gk) ∧
      envKey = some k ∧
      rq.service.template.containers =
        [{ image := image,
           env := [{ name := "ENABLE_MCP", value := JVal.str "true" },
                   { name := "DEFAULT_MODEL", value := JVal.str "gemini-2.5-pro-preview-03-25" },
                   { name := "HUMANITEC_TOKEN", value := JVal.str ht },
                   { name := "GOOGLE_API_KEY", value := JVal.str gk },
                   { name := "GCP_SERVICE_ACCOUNT_KEY_JSON", value := JVal.str k }] }] := by
  rcases handler_cases P envKey req s with ⟨h0, -⟩ | ⟨sn, ht, gk, hv⟩
  · rw [h0] at hcall
    simp at hcall
  rw [valid_post_eq P envKey req s hv] at hcall
  rcases provision_cases P envKey (JVal.str sn) (JVal.str ht) (JVal.str gk) s with
    ⟨h1, -⟩ | ⟨pid, s1, k, -, hk, -, hp⟩
  · rw [h1] at hcall
    simp at hcall
  rw [hp] at hcall
  have hrq : rq = createServiceRequest pid (JVal.str sn) (JVal.str ht) (JVal.str gk)
      (JVal.str k) := by
    rcases tryBlock_cases P (JVal.str sn)
        (createServiceRequest pid (JVal.str sn) (JVal.str ht) (JVal.str gk) (JVal.str k)) s1 with
      ⟨e, calls, s2, ht2, hmem⟩ | ⟨op, sr, pol, t1, t2, t3, t4, -, -, -, -, ht2⟩
    · rw [ht2] at hcall
      simp only [List.mem_cons, reduceCtorEq, false_or] at hcall
      exact hmem rq hcall
    · rw [ht2] at hcall
      simpa using hcall
  exact ⟨ht, gk, k, fixedContainerImage pid, hv.humanitecToken_eq, hv.googleApiKey_eq, hk,
    by rw [hrq]; rfl⟩

theorem createService_environment_witness :
    Call.createService
        (createServiceRequest "proj-1" (JVal.str "demo") (JVal.str "tok") (JVal.str "key")
          (JVal.str "blob")) ∈
      (createCloudRunService happyProvider (some "blob") sampleRequest ()).calls ∧
    ∃ ht gk k image,
      sampleRequest.body.getProp "HUMANITEC_TOKEN" = some (JVal.str ht) ∧
      sampleRequest.body.getProp "GOOGLE_API_KEY" = some (JVal.str gk) ∧
      some "blob" = some k ∧
      (createServiceRequest "proj-1" (JVal.str "demo") (JVal.str "tok") (JVal.str "key")
          (JVal.str "blob")).service.template.containers =
        [{ image := image,
           env := [{ name := "ENABLE_MCP", value := JVal.str "true" },
                   { name := "DEFAULT_MODEL", value := JVal.str "gemini-2.5-pro-preview-03-25" },
                   { name := "HUMANITEC_TOKEN", value := JVal.str ht },
                   { name := "GOOGLE_API_KEY", value := JVal.str gk },
                   { name := "GCP_SERVICE_ACCOUNT_KEY_JSON", value := JVal.str k }] }] :=
  ⟨List.Mem.tail _ (List.Mem.head _),
    createService_environment happyProvider (some "blob") sampleRequest () _
      (List.Mem.tail _ (List.Mem.head _))⟩

/-- C9: creation and policy update are not transactional.  On a `POST` request
that passes the validation, with the project id resolved, the credential
variable set, and `createService` and its operation successful: when
`getIamPolicy` throws, or `setIamPolicy` throws, the failing call is the last
one the handler makes (no rollback of the created service) and the response
is the one chosen by the `catch` block, with status 409, 403 or 500, never
200.  And on any request, a 200 response means that `createService`,
`getIamPolicy` and `setIamPolicy` were each called once, in that order, and
all succeeded. -/
theorem no_rollback {σ : Type} (P : Provider σ) (envKey : Option String) (req : Request)
    (s : σ) :
    (∀ (sn ht gk k pid : String) (op : Operation) (sr : ServiceResponse) (err : JsError)
        (s1 s2 s3 : σ),
      ValidPost req sn ht gk → envKey = some k → k ≠ "" →
      P.getProjectId s = (Except.ok pid, s1) →
      P.createService
        (createServiceRequest pid (JVal.str sn) (JVal.str ht) (JVal.str gk) (JVal.str k)) s1 =
          (Except.ok op, s2) →
      P.operationPromise op s2 = (Except.ok sr, s3) →
      ((catchBlock (JVal.str sn) err).status = 409 ∨
        (catchBlock (JVal.str sn) err).status = 403 ∨
        (catchBlock (JVal.str sn) err).status = 500) ∧
      (∀ s4, P.getIamPolicy sr.name s3 = (Except.error err, s4) →
        createCloudRunService P envKey req s =
          { response := some (catchBlock (JVal.str sn) err),
            calls := [Call.getProjectId,
              Call.createService (createServiceRequest pid (JVal.str sn) (JVal.str ht)
                (JVal.str gk) (JVal.str k)),
              Call.operationPromise op, Call.getIamPolicy sr.name],
            state := s4 }) ∧
      (∀ pol s4 s5, P.getIamPolicy sr.name s3 = (Except.ok pol, s4) →
        P.setIamPolicy sr.name (pushPublicInvoker pol) s4 = (Except.error err, s5) →
        createCloudRunService P envKey req s =
          { response := some (catchBlock (JVal.str sn) err),
            calls := [Call.getProjectId,
              Call.createService (createServiceRequest pid (JVal.str sn) (JVal.str ht)
                (JVal.str gk) (JVal.str k)),
              Call.operationPromise op, Call.getIamPolicy sr.name,
              Call.setIamPolicy sr.name (pushPublicInvoker pol)],
            state := s5 })) ∧
    (∀ resp, (createCloudRunService P envKey req s).response = some resp →
      resp.status = 200 →
      ∃ (sn ht gk k pid : String) (op : Operation) (sr : ServiceResponse) (pol : Policy)
          (s1 s2 s3 s4 s5 : σ),
        ValidPost req sn ht gk ∧ envKey = some k ∧
        P.getProjectId s = (Except.ok pid, s1) ∧
        P.createService
          (createServiceRequest pid (JVal.str sn) (JVal.str ht) (JVal.str gk) (JVal.str k)) s1 =
            (Except.ok op, s2) ∧
        P.operationPromise op s2 = (Except.ok sr, s3) ∧
        P.getIamPolicy sr.name s3 = (Except.ok pol, s4) ∧
        P.setIamPolicy sr.name (pushPublicInvoker pol) s4 = (Except.ok (), s5) ∧
        (createCloudRunService P envKey req s).calls =
          [Call.getProjectId,
           Call.createService (createServiceRequest pid (JVal.str sn) (JVal.str ht)
             (JVal.str gk) (JVal.str k)),
           Call.operationPromise op, Call.getIamPolicy sr.name,
           Call.setIamPolicy sr.name (pushPublicInvoker pol)]) := by
  constructor
  · intro sn ht gk k pid op sr err s1 s2 s3 hv henv hk hpid hcreate hop
    subst henv
    refine ⟨?_, ?_, ?_⟩
    · rw [catchBlock_status]
      split
      · exact Or.inl rfl
      · split
        · exact Or.inr (Or.inl rfl)
        · exact Or.inr (Or.inr rfl)
    · intro s4 hget
      rw [valid_post_eq P (some k) req s hv, provision_of_env_some P k hk _ _ _ s s1 pid hpid,
        tryBlock_of_getIamPolicy_error P _ _ s1 s2 s3 s4 op sr err hcreate hop hget]
    · intro pol s4 s5 hget hset
      rw [valid_post_eq P (some k) req s hv, provision_of_env_some P k hk _ _ _ s s1 pid hpid,
        tryBlock_of_setIamPolicy_error P _ _ s1 s2 s3 s4 s5 op sr pol err hcreate hop hget hset]
  · intro resp hresp hstatus
    rcases handler_cases P envKey req s with ⟨-, h0⟩ | ⟨sn, ht, gk, hv⟩
    · exact absurd hstatus (h0 resp hresp)
    rw [valid_post_eq P envKey req s hv] at hresp ⊢
    rcases provision_cases P envKey (JVal.str sn) (JVal.str ht) (JVal.str gk) s with
      ⟨-, text, h1⟩ | ⟨pid, s1, k, hpid, hk, -, hp⟩
    · rw [h1] at hresp
      simp only [Option.some.injEq] at hresp
      subst hresp
      simp [sendText] at hstatus
    rw [hp] at hresp ⊢
    rcases tryBlock_cases P (JVal.str sn)
        (createServiceRequest pid (JVal.str sn) (JVal.str ht) (JVal.str gk) (JVal.str k)) s1 with
      ⟨e, calls, s2, ht2, -⟩ | ⟨op, sr, pol, t1, t2, t3, t4, c1, c2, c3, c4, ht2⟩
    · rw [ht2] at hresp
      simp only [Option.some.injEq] at hresp
      subst hresp
      exact absurd hstatus (catchBlock_status_ne_200 _ _)
    · rw [ht2]
      exact ⟨sn, ht, gk, k, pid, op, sr, pol, s1, t1, t2, t3, t4, hv, hk, hpid, c1, c2, c3, c4,
        rfl⟩

theorem no_rollback_witness :
    ValidPost sampleRequest "demo" "tok" "key" ∧
    createCloudRunService
        (setPolicyFailsProvider { code := JVal.num 7, message := "denied" }) (some "blob")
        sampleRequest () =
      { response := some (catchBlock (JVal.str "demo") { code := JVal.num 7, message := "denied" }),
        calls := [Call.getProjectId,
          Call.createService (createServiceRequest "proj-1" (JVal.str "demo") (JVal.str "tok")
            (JVal.str "key") (JVal.str "blob")),
          Call.operationPromise { name := "operations/op-1" },
          Call.getIamPolicy demoService.name,
          Call.setIamPolicy demoService.name (pushPublicInvoker demoPolicy)],
        state := () } ∧
    (catchBlock (JVal.str "demo") { code := JVal.num 7, message := "denied" }).status = 403 :=
  ⟨sampleRequest_valid,
    ((no_rollback (setPolicyFailsProvider { code := JVal.num 7, message := "denied" })
        (some "blob") sampleRequest ()).1 "demo" "tok" "key" "blob" "proj-1"
        { name := "operations/op-1" } demoService { code := JVal.num 7, message := "denied" }
        () () () sampleRequest_valid rfl (by decide) rfl rfl rfl).2.2 demoPolicy () () rfl rfl,
    rfl⟩

end CanyonService
